import Mathlib

/-! Verification of the IMS (Image Management System) microservice suite:
JWT issuance and validation, role guards, and the API gateway router.
Each backend service is embedded in its own namespace, mirroring the
per-service copies of `security.py` and `dependencies.py` in the repository. -/

namespace IMS

/-! ## JWT model

A JWT string is abstracted by the claim set it decodes to together with a
flag saying whether its HMAC signature verifies under the shared
`SECRET_KEY`.  A string that is not a JWT at all (empty string, wrong
number of segments) is represented by `none : TokenStr`. -/

/-- The claim set of a decoded JWT payload.  Claims a token may omit are
`Option`s; `exp` and `iat` are POSIX timestamps in seconds. -/
structure Payload where
  sub : Option String
  role : Option String
  is_active : Option Bool
  iss : Option String
  exp : Option Int
  iat : Option Int
deriving DecidableEq, Repr

/-- A syntactically well-formed JWT: its payload plus whether the signature
verifies under the shared secret. -/
structure Token where
  payload : Payload
  sigValid : Bool
deriving DecidableEq, Repr

/-- A raw token string: `none` stands for a string the JWT library cannot
even parse (empty, not three segments). -/
abbrev TokenStr := Option Token

/-- The two `JWTError`s that `jwt.decode` with
`verify_signature=True, verify_exp=True` can raise in this model. -/
inductive JWTErr where
  | badSignature
  | expired
deriving DecidableEq, Repr

/-- `str(e)` for the two library errors (python-jose message texts). -/
def jwtErrMsg : JWTErr → String
  | .badSignature => "Signature verification failed."
  | .expired => "Signature has expired."

/-- `jose.jwt.decode(token, SECRET_KEY, options={"verify_signature": True,
"verify_exp": True, ...})`: rejects a bad signature, rejects an `exp`
strictly in the past (leeway 0), tolerates a missing `exp`, and performs
no other claim verification. -/
def jwtDecodeVerifySigExp (t : Token) (now : Int) : Except JWTErr Payload :=
  if t.sigValid then
    match t.payload.exp with
    | some e => if e < now then .error .expired else .ok t.payload
    | none => .ok t.payload
  else .error .badSignature

/-! ## Character-list string primitives (Python `startswith`, `in`, `lower`) -/

/-- `charsPrefix p s`: the character list `p` is a prefix of `s`. -/
def charsPrefix : List Char → List Char → Bool
  | [], _ => true
  | _ :: _, [] => false
  | p :: ps, c :: cs => p == c && charsPrefix ps cs

/-- `listHasSub pat s`: `pat` occurs as a contiguous substring of `s`. -/
def listHasSub (pat : List Char) : List Char → Bool
  | [] => pat.isEmpty
  | c :: cs => charsPrefix pat (c :: cs) || listHasSub pat cs

/-- Python `p in s` on strings. -/
def strContainsSub (s pat : String) : Bool := listHasSub pat.data s.data

/-- Python `s.startswith(p)`. -/
def strStartsWith (s p : String) : Bool := charsPrefix p.data s.data

/-- Python `s.lower()`. -/
def strLower (s : String) : String := ⟨s.data.map Char.toLower⟩

/-! ## HTTP error details

Every `HTTPException` detail string the embedded code can produce, as an
enumerated type; each constructor documents the literal message. -/

inductive HTTPDetail where
  /-- "Could not validate credentials" -/
  | couldNotValidate
  /-- "User account is inactive. Please contact administrator." -/
  | inactiveAccount
  /-- "Not enough permissions" -/
  | notEnoughPermissions
  /-- "Not enough permissions. Required roles: {allowed_role_strings}, User role: {user_role}" -/
  | notEnoughPermissionsVerbose (allowed_role_strings : List String) (user_role : Option String)
  /-- "Incorrect username or password" -/
  | incorrectCredentials
  /-- "User not found" -/
  | userNotFound
  /-- "User account is inactive" -/
  | inactiveShort
  /-- "Route not found: {full_path}" -/
  | routeNotFound (full_path : String)
  /-- "Gateway timeout" -/
  | gatewayTimeout
  /-- "Service unavailable" -/
  | serviceUnavailable
  /-- "Gateway error: {str(e)}" -/
  | gatewayError (msg : String)
deriving DecidableEq, Repr

/-! ## User roles (`UserRole(str, enum.Enum)`, identical copies in
auth-service, patient-service and the shared user model) -/

inductive UserRole where
  | ADMIN
  | PATIENT
  | RADIOLOGIST
  | DOCTOR
  | CASHIER
deriving DecidableEq, Repr

/-- `UserRole.X.value`. -/
def UserRole.value : UserRole → String
  | .ADMIN => "admin"
  | .PATIENT => "patient"
  | .RADIOLOGIST => "radiologist"
  | .DOCTOR => "doctor"
  | .CASHIER => "cashier"

/-! ## Token validators (`decode_access_token`), one per service. -/

namespace AuthService

/-- `auth-service/app/core/security.py:decode_access_token`.
Decodes with signature and expiry verification only, then manually rejects
a present-but-mismatched issuer claim; on a `JWTError` whose message
mentions the issuer it retries with relaxed options (same signature and
expiry verification), otherwise returns `None`. -/
def decode_access_token (token : TokenStr) (now : Int) : Option Payload :=
  match token with
  | none => none
  | some t =>
    match jwtDecodeVerifySigExp t now with
    | .ok payload =>
      match payload.iss with
      | some i => if i ≠ "ims-auth-service" then none else some payload
      | none => some payload
    | .error e =>
      let error_msg := jwtErrMsg e
      if strContainsSub (strLower error_msg) "iss" || strContainsSub (strLower error_msg) "issuer" then
        match jwtDecodeVerifySigExp t now with
        | .ok payload => some payload
        | .error _ => none
      else none

end AuthService

namespace UserService

/-- `user-service/app/core/security.py:decode_access_token` — same logic as
the auth-service copy: manual issuer check, issuer-error retry. -/
def decode_access_token (token : TokenStr) (now : Int) : Option Payload :=
  match token with
  | none => none
  | some t =>
    match jwtDecodeVerifySigExp t now with
    | .ok payload =>
      match payload.iss with
      | some i => if i ≠ "ims-auth-service" then none else some payload
      | none => some payload
    | .error e =>
      let error_msg := jwtErrMsg e
      if strContainsSub (strLower error_msg) "iss" || strContainsSub (strLower error_msg) "issuer" then
        match jwtDecodeVerifySigExp t now with
        | .ok payload => some payload
        | .error _ => none
      else none

end UserService

namespace MedicalTestService

/-- `medical-test-service/app/core/security.py:decode_access_token` — same
logic as the auth-service copy: manual issuer check, issuer-error retry. -/
def decode_access_token (token : TokenStr) (now : Int) : Option Payload :=
  match token with
  | none => none
  | some t =>
    match jwtDecodeVerifySigExp t now with
    | .ok payload =>
      match payload.iss with
      | some i => if i ≠ "ims-auth-service" then none else some payload
      | none => some payload
    | .error e =>
      let error_msg := jwtErrMsg e
      if strContainsSub (strLower error_msg) "iss" || strContainsSub (strLower error_msg) "issuer" then
        match jwtDecodeVerifySigExp t now with
        | .ok payload => some payload
        | .error _ => none
      else none

end MedicalTestService

namespace PatientService

/-- `patient-service/app/core/security.py:decode_access_token`.
First attempt verifies signature and expiry; on success the payload is
returned with NO issuer check.  On a `JWTError` whose lower-cased message
contains "iss", "mandatory", "expired" or "signature" it retries with the
same signature and expiry verification, then gives up with `None`. -/
def decode_access_token (token : TokenStr) (now : Int) : Option Payload :=
  match token with
  | none => none
  | some t =>
    match jwtDecodeVerifySigExp t now with
    | .ok payload => some payload
    | .error e =>
      let error_msg := strLower (jwtErrMsg e)
      if strContainsSub error_msg "iss" || strContainsSub error_msg "mandatory" ||
          strContainsSub error_msg "expired" || strContainsSub error_msg "signature" then
        match jwtDecodeVerifySigExp t now with
        | .ok payload => some payload
        | .error _ => none
      else none

end PatientService

namespace DiagnosticReportService

/-- `diagnostic-report-service/app/core/security.py:decode_access_token` —
single decode with signature and expiry verification, no issuer check. -/
def decode_access_token (token : TokenStr) (now : Int) : Option Payload :=
  match token with
  | none => none
  | some t =>
    match jwtDecodeVerifySigExp t now with
    | .ok payload => some payload
    | .error _ => none

end DiagnosticReportService

namespace MedicalStaffService

/-- `medical-staff-service/app/core/security.py:decode_access_token` —
single decode with signature and expiry verification, no issuer check. -/
def decode_access_token (token : TokenStr) (now : Int) : Option Payload :=
  match token with
  | none => none
  | some t =>
    match jwtDecodeVerifySigExp t now with
    | .ok payload => some payload
    | .error _ => none

end MedicalStaffService

/-! ## API gateway (`api-gateway/main.py`) -/

namespace Gateway

/-- The module-level `SERVICE_MAPPINGS` dict: route prefix → backend base URL. -/
def SERVICE_MAPPINGS : List (String × String) :=
  [("/api/v1/auth", "http://auth-service:5001"),
   ("/api/v1/users", "http://user-service:5002"),
   ("/api/v1/patients", "http://patient-service:5003"),
   ("/api/v1/medical-staff", "http://medical-staff-service:5004"),
   ("/api/v1/medical-images", "http://medical-image-service:5005"),
   ("/api/v1/medical-tests", "http://medical-test-service:5009"),
   ("/api/v1/diagnostic-reports", "http://diagnostic-report-service:5006"),
   ("/api/v1/billing", "http://billing-service:5007"),
   ("/api/v1/workflow", "http://workflow-service:5008")]

/-- `if not path.startswith("/"): path = "/" + path` — the normalization
done both inside `find_target_service` and in `gateway_router`. -/
def normalizePath (path : String) : String :=
  if strStartsWith path "/" then path else "/" ++ path

/-- `find_target_service`, parametrized by the configured mapping (the
source reads the module-level `SERVICE_MAPPINGS`).  Prefixes are tried in
length-descending order (`sorted(keys, key=len, reverse=True)`, embedded
as an insertion sort by the same key); the first prefix the normalized
path starts with wins, and the full normalized path is forwarded. -/
def findTargetService (mappings : List (String × String)) (path : String) :
    Option (String × String) :=
  let path := normalizePath path
  let sorted_paths :=
    List.insertionSort (fun a b : String => b.length ≤ a.length) (mappings.map Prod.fst)
  match sorted_paths.find? (fun sp => strStartsWith path sp) with
  | some service_path =>
    match mappings.find? (fun kv => kv.1 == service_path) with
    | some kv => some (kv.2, path)
    | none => none
  | none => none

/-- `find_target_service` over the configured `SERVICE_MAPPINGS`. -/
def find_target_service (path : String) : Option (String × String) :=
  findTargetService SERVICE_MAPPINGS path

/-- The incoming request as the gateway sees it: method, query parameters,
raw body bytes, and headers (Starlette lower-cases header names). -/
structure GatewayRequest where
  method : String
  queryParams : List (String × String)
  body : List Nat
  headers : List (String × String)
deriving DecidableEq, Repr

/-- The request `httpx.AsyncClient.request` is given. -/
structure ForwardedRequest where
  url : String
  method : String
  params : List (String × String)
  content : List Nat
  headers : List (String × String)
deriving DecidableEq, Repr

/-- `dict.pop(k, None)`: drop the entry for key `k`. -/
def popHeader (hs : List (String × String)) (k : String) : List (String × String) :=
  hs.filter (fun kv => kv.1 != k)

/-- `dict.get(k)` on a header mapping. -/
def headerGet (hs : List (String × String)) (k : String) : Option String :=
  (hs.find? (fun kv => kv.1 == k)).map Prod.snd

/-- The upstream response `httpx` hands back. -/
structure UpstreamResponse where
  status : Nat
  headers : List (String × String)
  content : List Nat
deriving DecidableEq, Repr

/-- Outcome of the upstream call: a response, or one of the exceptions the
`except` clauses in `proxy_request` distinguish. -/
inductive UpstreamResult where
  | response (r : UpstreamResponse)
  | timeout
  | connectError
  | otherError (msg : String)
deriving DecidableEq, Repr

/-- The `fastapi.responses.Response` object returned downstream. -/
structure OutResponse where
  content : List Nat
  status_code : Nat
  headers : List (String × String)
  media_type : Option String
deriving DecidableEq, Repr

/-- What a gateway handler produces: a proxied response, an
`HTTPException`, or one of the fixed info JSON bodies. -/
inductive GatewayResult where
  | ok (r : OutResponse)
  | httpError (status : Nat) (detail : HTTPDetail)
  | info (body : String)
deriving DecidableEq, Repr

/-- The upstream request built inside `proxy_request`: same method, query
parameters and body, with the `host`, `connection` and `content-length`
request headers popped. -/
def buildForwardedRequest (request : GatewayRequest) (target_url path : String) :
    ForwardedRequest :=
  { url := target_url ++ path
    method := request.method
    params := request.queryParams
    content := request.body
    headers := popHeader (popHeader (popHeader request.headers "host") "connection")
      "content-length" }

/-- `proxy_request`, with the network abstracted as a function from the
forwarded request to an `UpstreamResult`.  On a response: forward status
and body bytes, pop `content-encoding`, `transfer-encoding` and
`content-length` from the response headers, keep the upstream
`content-type` as media type.  On `httpx.TimeoutException`: 504; on
`httpx.ConnectError`: 503; on any other exception: 500 carrying the
failure reason. -/
def proxy_request (request : GatewayRequest) (target_url path : String)
    (backend : ForwardedRequest → UpstreamResult) : GatewayResult :=
  let fwd := buildForwardedRequest request target_url path
  match backend fwd with
  | .response response =>
    let response_headers :=
      popHeader (popHeader (popHeader response.headers "content-encoding")
        "transfer-encoding") "content-length"
    .ok { content := response.content
          status_code := response.status
          headers := response_headers
          media_type := headerGet response.headers "content-type" }
  | .timeout => .httpError 504 .gatewayTimeout
  | .connectError => .httpError 503 .serviceUnavailable
  | .otherError msg => .httpError 500 (.gatewayError msg)

/-- `gateway_router`: serve the two info endpoints, normalize the path,
resolve the target service, 404 when none matches, otherwise proxy. -/
def gateway_router (path : String) (request : GatewayRequest)
    (backend : ForwardedRequest → UpstreamResult) : GatewayResult :=
  if path = "" || path = "/" then .info "api-gateway running"
  else if path = "health" then .info "healthy"
  else
    let full_path := if !(strStartsWith path "/") then "/" ++ path else path
    match find_target_service full_path with
    | none => .httpError 404 (.routeNotFound full_path)
    | some (target_url, remaining_path) =>
      proxy_request request target_url remaining_path backend

end Gateway

/-! ## Authentication guards (`dependencies.py`), one namespace per service.

The header-extraction preamble of every guard (HTTPBearer credentials or a
manual `Authorization: Bearer` parse) is abstracted: the guard receives
the extracted `TokenStr`; a missing or non-Bearer header corresponds to
the same 401 the `none` decode path yields. -/

namespace PatientService

/-- Outcome of a patient-service dependency: a user id, the admin sentinel
dict, a bare `payload.get("sub")` (possibly `None`), or an
`HTTPException`. -/
inductive AuthOutcome where
  | ok (user_id : String)
  | admin
  | okOpt (user_id : Option String)
  | err (status : Nat) (detail : HTTPDetail)
deriving DecidableEq, Repr

/-- `patient-service/app/core/dependencies.py:get_current_user_id`:
decode, require a `sub` claim, and unless `allow_inactive` reject an
`is_active=false` payload (absent `is_active` defaults to `True`). -/
def get_current_user_id (token : TokenStr) (now : Int) (allow_inactive : Bool) :
    AuthOutcome :=
  match decode_access_token token now with
  | none => .err 401 .couldNotValidate
  | some payload =>
    match payload.sub with
    | none => .err 401 .couldNotValidate
    | some user_id =>
      if !allow_inactive && !(payload.is_active.getD true) then
        .err 403 .inactiveAccount
      else .ok user_id

/-- `patient-service/app/core/dependencies.py:get_current_user`: decode,
return the admin sentinel for `role=admin, sub=None`, else return the
`sub` business identifier.  No activation check is performed (the source
notes it would require querying the user table). -/
def get_current_user (token : TokenStr) (now : Int) (allow_inactive : Bool) :
    AuthOutcome :=
  match decode_access_token token now with
  | none => .err 401 .couldNotValidate
  | some payload =>
    let role := payload.role
    let user_id := payload.sub
    if role = some UserRole.ADMIN.value ∧ user_id = none then .admin
    else
      match user_id with
      | none => .err 401 .couldNotValidate
      | some uid => .ok uid

/-- `patient-service/app/core/dependencies.py:require_role` (the
`role_checker` closure): decode, inactive check (absent defaults to
`True`), role membership against `[role.value for role in allowed_roles]`,
admin sentinel for `role=admin, sub=None`, else the raw `sub`. -/
def require_role (allowed_roles : List UserRole) (token : TokenStr) (now : Int) :
    AuthOutcome :=
  match decode_access_token token now with
  | none => .err 401 .couldNotValidate
  | some payload =>
    if !(payload.is_active.getD true) then .err 403 .inactiveAccount
    else
      let user_role := payload.role
      let allowed_role_values := allowed_roles.map UserRole.value
      if !(match user_role with
           | some r => allowed_role_values.contains r
           | none => false) then
        .err 403 .notEnoughPermissions
      else
        let user_id := payload.sub
        if user_role = some UserRole.ADMIN.value ∧ user_id = none then .admin
        else .okOpt user_id

end PatientService

namespace MedicalTestService

/-- Outcome of a medical-test-service dependency. -/
inductive AuthOutcome where
  | ok (user_id : String)
  | err (status : Nat) (detail : HTTPDetail)
deriving DecidableEq, Repr

/-- `medical-test-service/app/core/dependencies.py:get_current_user_id`:
decode, require `sub`, and unless `allow_inactive` reject
`is_active=false` (absent defaults to `True`). -/
def get_current_user_id (token : TokenStr) (now : Int) (allow_inactive : Bool) :
    AuthOutcome :=
  match decode_access_token token now with
  | none => .err 401 .couldNotValidate
  | some payload =>
    match payload.sub with
    | none => .err 401 .couldNotValidate
    | some user_id =>
      if !allow_inactive && !(payload.is_active.getD true) then
        .err 403 .inactiveAccount
      else .ok user_id

/-- `medical-test-service/app/core/dependencies.py:require_role` (the
`role_checker` closure): decode, inactive check, lower-cased role
comparison, then REQUIRE a `sub` claim — a sub-less token is rejected 401
even when its role is allowed (there is no admin-sentinel branch in this
copy).  Call sites pass the allowed roles as plain strings. -/
def require_role (allowed_roles : List String) (token : TokenStr) (now : Int) :
    AuthOutcome :=
  match decode_access_token token now with
  | none => .err 401 .couldNotValidate
  | some payload =>
    if !(payload.is_active.getD true) then .err 403 .inactiveAccount
    else
      let user_role := payload.role
      let user_role_normalized := user_role.map strLower
      let allowed_role_strings := allowed_roles.map strLower
      if !(match user_role_normalized with
           | some r => allowed_role_strings.contains r
           | none => false) then
        .err 403 (.notEnoughPermissionsVerbose allowed_role_strings user_role)
      else
        match payload.sub with
        | none => .err 401 .couldNotValidate
        | some user_id => .ok user_id

end MedicalTestService

namespace UserService

/-- Row of the `user_service.users` table
(`auth-service/app/models/user.py`, shared by the user service). -/
structure User where
  user_id : String
  username : String
  email : String
  name : String
  hashed_password : String
  user_role : UserRole
  is_active : Bool
deriving DecidableEq, Repr

/-- Outcome of a user-service dependency: the admin sentinel dict, a
database `User` row, or an `HTTPException`. -/
inductive Principal where
  | admin
  | user (u : User)
  | err (status : Nat) (detail : HTTPDetail)
deriving DecidableEq, Repr

/-- `user-service/app/core/dependencies.py:get_current_user`: decode,
admin sentinel for `role=admin, sub=None`, otherwise fetch the row whose
`user_id` equals `sub` and, unless `allow_inactive`, reject an inactive
row. -/
def get_current_user (db : List User) (token : TokenStr) (now : Int)
    (allow_inactive : Bool) : Principal :=
  match decode_access_token token now with
  | none => .err 401 .couldNotValidate
  | some payload =>
    let role := payload.role
    let user_id := payload.sub
    if role = some UserRole.ADMIN.value ∧ user_id = none then .admin
    else
      match user_id with
      | none => .err 401 .couldNotValidate
      | some uid =>
        match db.find? (fun u => u.user_id == uid) with
        | none => .err 401 .userNotFound
        | some user =>
          if !allow_inactive && !user.is_active then .err 403 .inactiveShort
          else .user user

/-- `user-service/app/core/dependencies.py:require_role` (the
`role_checker` closure over `get_current_user`): compare the principal's
`user_role` against the allowed `UserRole`s. -/
def require_role (allowed_roles : List UserRole) (db : List User)
    (token : TokenStr) (now : Int) : Principal :=
  match get_current_user db token now false with
  | .err s d => .err s d
  | .admin =>
    if !(allowed_roles.contains UserRole.ADMIN) then .err 403 .notEnoughPermissions
    else .admin
  | .user u =>
    if !(allowed_roles.contains u.user_role) then .err 403 .notEnoughPermissions
    else .user u

end UserService

/-! ## Token issuance (auth-service) -/

namespace AuthService

/-- `settings.ADMIN_USERNAME` (auth-service config default). -/
def ADMIN_USERNAME : String := "admin"

/-- `settings.ADMIN_PASSWORD_HASH` (auth-service config default; compared
to the submitted password by plain equality). -/
def ADMIN_PASSWORD_HASH : String := "admin#123"

/-- `settings.ACCESS_TOKEN_EXPIRE_MINUTES`. -/
def ACCESS_TOKEN_EXPIRE_MINUTES : Int := 30

/-- The dict `authenticate_user` returns. -/
structure AuthUserData where
  user_id : Option String
  username : String
  email : Option String
  name : String
  user_role : UserRole
  is_active : Bool
  is_admin : Bool
deriving DecidableEq, Repr

/-- `auth-service/app/services/auth_service.py:authenticate_user`.
`verify_password` (SHA-256 + bcrypt check, not embeddable) is passed in as
an oracle taking the plain password and the stored hash. -/
def authenticate_user (db : List UserService.User)
    (verify_password : String → String → Bool)
    (username password : String) : Option AuthUserData :=
  if username = ADMIN_USERNAME ∧ password = ADMIN_PASSWORD_HASH then
    some { user_id := none
           username := ADMIN_USERNAME
           email := none
           name := "Admin"
           user_role := .ADMIN
           is_active := true
           is_admin := true }
  else
    match db.find? (fun u => u.username == username) with
    | none => none
    | some user =>
      if !(verify_password password user.hashed_password) then none
      else
        some { user_id := some user.user_id
               username := user.username
               email := some user.email
               name := user.name
               user_role := user.user_role
               is_active := user.is_active
               is_admin := false }

/-- `auth-service/app/core/security.py:create_access_token`: copy the
claim dict and stamp `exp = now + expires_delta` (default
`ACCESS_TOKEN_EXPIRE_MINUTES`), `iat = now`, `iss = "ims-auth-service"`;
sign with the shared secret (abstracted as `sigValid := true`).
`expires_delta` is in seconds. -/
def create_access_token (data : Payload) (now : Int)
    (expires_delta : Option Int) : Token :=
  let expire := now + expires_delta.getD (60 * ACCESS_TOKEN_EXPIRE_MINUTES)
  { payload :=
      { data with
        exp := some expire
        iat := some now
        iss := some "ims-auth-service" }
    sigValid := true }

/-- `auth-service/app/services/auth_service.py:create_access_token_for_user`:
claims `{role, is_active}`, plus `sub = user_id` only for a non-admin
principal whose `user_id` is truthy (non-`None`, non-empty). -/
def create_access_token_for_user (user_data : AuthUserData) (now : Int) : Token :=
  let role_value := user_data.user_role.value
  let base : Payload :=
    { sub := none, role := some role_value, is_active := some user_data.is_active,
      iss := none, exp := none, iat := none }
  let token_data : Payload :=
    match user_data.user_id with
    | some uid =>
      if !user_data.is_admin && uid != "" then { base with sub := some uid } else base
    | none => base
  create_access_token token_data now (some (60 * ACCESS_TOKEN_EXPIRE_MINUTES))

/-- `auth-service/app/api/v1/auth.py:login`: authenticate, 401 on failure,
otherwise issue the token (the response also carries user info and
schedules a background workflow log; the token is the part the claims
concern). -/
def login (db : List UserService.User) (verify_password : String → String → Bool)
    (username password : String) (now : Int) : Except (Nat × HTTPDetail) Token :=
  match authenticate_user db verify_password username password with
  | none => .error (401, .incorrectCredentials)
  | some user_data => .ok (create_access_token_for_user user_data now)

end AuthService

/-! ## Fire-and-forget workflow notifier (diagnostic-report-service) -/

namespace DiagnosticReportService

/-- Outcome of the `httpx.Client.post` to the workflow logging endpoint. -/
inductive NotifyOutcome where
  | response (status : Nat) (text : String)
  | timeout
  | connectError
  | otherExc (msg : String)
deriving DecidableEq, Repr

/-- The body of the `try` block in `log_workflow_action_async`: the POST
either yields a response (logging a line when the status is not 200/201)
or raises. -/
def notifyAttempt (outcome : NotifyOutcome) : Except String (List String) :=
  match outcome with
  | .response status text =>
    if !([200, 201].contains status) then
      .ok ["Workflow logging failed: " ++ toString status ++ ": " ++ text]
    else .ok []
  | .timeout => .error "timeout"
  | .connectError => .error "connect error"
  | .otherExc msg => .error msg

/-- `diagnostic-report-service/app/services/workflow_logger.py:log_workflow_action_async`:
the whole call is wrapped in `try/except Exception`, so every failure is
turned into a log line and the function returns normally. -/
def log_workflow_action_async (user_id action : String)
    (entity_type relevant_id : Option String) (outcome : NotifyOutcome) :
    Except String (List String) :=
  match notifyAttempt outcome with
  | .ok logs => .ok logs
  | .error e => .ok ["Error logging workflow action: " ++ e]

/-- A response already computed by an endpoint. -/
structure ClientResponse where
  status_code : Nat
  body : List Nat
deriving DecidableEq, Repr

/-- The FastAPI background-task pattern the notifier is invoked through:
the endpoint's response is produced first and the notification runs after
it, so the pair is (response, background log lines). -/
def run_with_background_notifier (resp : ClientResponse) (user_id action : String)
    (entity_type relevant_id : Option String) (outcome : NotifyOutcome) :
    ClientResponse × List String :=
  (resp,
   match log_workflow_action_async user_id action entity_type relevant_id outcome with
   | .ok logs => logs
   | .error e => [e])

end DiagnosticReportService

/-! ## Helper lemmas -/

/-- A signature-valid, unexpired token decodes to its payload at the
library layer. -/
theorem jwt_ok {t : Token} {now : Int} (hsig : t.sigValid = true)
    (hexp : ∀ e, t.payload.exp = some e → ¬ e < now) :
    jwtDecodeVerifySigExp t now = .ok t.payload := by
  unfold jwtDecodeVerifySigExp
  rw [hsig]
  cases h : t.payload.exp with
  | none => rfl
  | some e => simp [if_neg (hexp e h)]

/-- A bad signature yields a library error. -/
theorem jwt_err_of_bad_sig {t : Token} (now : Int) (hsig : t.sigValid = false) :
    jwtDecodeVerifySigExp t now = .error .badSignature := by
  simp [jwtDecodeVerifySigExp, hsig]

/-- An `exp` in the past yields a library error. -/
theorem jwt_err_of_sig_or_exp {t : Token} {now : Int}
    (h : t.sigValid = false ∨ ∃ e, t.payload.exp = some e ∧ e < now) :
    ∃ er, jwtDecodeVerifySigExp t now = .error er := by
  rcases h with hsig | ⟨e, hexp, hlt⟩
  · exact ⟨.badSignature, jwt_err_of_bad_sig now hsig⟩
  · cases hs : t.sigValid
    · exact ⟨.badSignature, jwt_err_of_bad_sig now hs⟩
    · exact ⟨.expired, by simp [jwtDecodeVerifySigExp, hs, hexp, hlt]⟩

/-- The auth-service validator returns `None` whenever the library decode
errors (the issuer-error retry re-runs the same verification). -/
theorem auth_decode_of_error {t : Token} {now : Int} {er : JWTErr}
    (h : jwtDecodeVerifySigExp t now = .error er) :
    AuthService.decode_access_token (some t) now = none := by
  simp only [AuthService.decode_access_token]
  rw [h]
  cases er <;> rfl

/-- Same fact for the user-service copy. -/
theorem user_decode_of_error {t : Token} {now : Int} {er : JWTErr}
    (h : jwtDecodeVerifySigExp t now = .error er) :
    UserService.decode_access_token (some t) now = none := by
  simp only [UserService.decode_access_token]
  rw [h]
  cases er <;> rfl

/-- Same fact for the medical-test-service copy. -/
theorem medtest_decode_of_error {t : Token} {now : Int} {er : JWTErr}
    (h : jwtDecodeVerifySigExp t now = .error er) :
    MedicalTestService.decode_access_token (some t) now = none := by
  simp only [MedicalTestService.decode_access_token]
  rw [h]
  cases er <;> rfl

/-- The patient-service validator returns `None` whenever the library
decode errors: its relaxed second attempt verifies signature and expiry
again and fails the same way. -/
theorem patient_decode_of_error {t : Token} {now : Int} {er : JWTErr}
    (h : jwtDecodeVerifySigExp t now = .error er) :
    PatientService.decode_access_token (some t) now = none := by
  simp only [PatientService.decode_access_token]
  rw [h]
  cases er <;> rfl

/-- `l.contains a = false` when `a ∉ l` (for a lawful `BEq`). -/
theorem contains_eq_false_of_not_mem {α : Type} [BEq α] [LawfulBEq α] {l : List α} {a : α}
    (h : a ∉ l) : l.contains a = false := by
  induction l with
  | nil => rfl
  | cons b tl ih =>
    have hab : a ≠ b := fun he => h (he ▸ List.mem_cons_self b tl)
    have htl : a ∉ tl := fun ht => h (List.mem_cons_of_mem b ht)
    show List.elem a (b :: tl) = false
    rw [List.elem_cons, beq_false_of_ne hab]
    exact ih htl

/-! ## Claim theorems -/

/-- C4: a token whose signature does not verify under the shared secret,
or whose `exp` lies strictly in the past at validation time, is rejected
(`None`) by both the auth-service and the patient-service
`decode_access_token`, whatever all its other claims are. -/
theorem C4_decode_rejects_bad_sig_or_expired (t : Token) (now : Int)
    (h : t.sigValid = false ∨ ∃ e, t.payload.exp = some e ∧ e < now) :
    AuthService.decode_access_token (some t) now = none ∧
    PatientService.decode_access_token (some t) now = none := by
  obtain ⟨er, herr⟩ := jwt_err_of_sig_or_exp h
  exact ⟨auth_decode_of_error herr, patient_decode_of_error herr⟩

/-- C4 witness: a concrete token with an invalid signature is rejected by
both validators. -/
theorem C4_witness :
    ((⟨⟨none, none, none, none, none, none⟩, false⟩ : Token).sigValid = false ∨
      ∃ e, (⟨⟨none, none, none, none, none, none⟩, false⟩ : Token).payload.exp = some e ∧
        e < 0) ∧
    (AuthService.decode_access_token
        (some ⟨⟨none, none, none, none, none, none⟩, false⟩) 0 = none ∧
      PatientService.decode_access_token
        (some ⟨⟨none, none, none, none, none, none⟩, false⟩) 0 = none) :=
  ⟨Or.inl rfl,
   C4_decode_rejects_bad_sig_or_expired ⟨⟨none, none, none, none, none, none⟩, false⟩ 0
     (Or.inl rfl)⟩

/-- C2 counterexample: a signature-valid, unexpired token carrying
`iss = "evil-issuer"` is ACCEPTED by the patient-service validator, so it
is not the case that every backend service's validator rejects a
mismatched issuer. -/
theorem C2_counterexample :
    PatientService.decode_access_token
      (some ⟨⟨none, none, none, some "evil-issuer", none, none⟩, true⟩) 0 ≠ none := by
  decide

/-- C2 (amended): for a token whose signature verifies and whose `exp` is
not in the past, a present-but-mismatched `iss` claim is rejected by the
auth-, user- and medical-test-service validators, but ACCEPTED by the
patient-, diagnostic-report- and medical-staff-service validators, which
perform no issuer check; a token with no `iss` claim at all is accepted by
all six validators. -/
theorem C2_issuer_check_per_service (t : Token) (now : Int) (i : String)
    (hsig : t.sigValid = true)
    (hexp : ∀ e, t.payload.exp = some e → ¬ e < now) :
    (t.payload.iss = some i → i ≠ "ims-auth-service" →
      AuthService.decode_access_token (some t) now = none ∧
      UserService.decode_access_token (some t) now = none ∧
      MedicalTestService.decode_access_token (some t) now = none ∧
      PatientService.decode_access_token (some t) now = some t.payload ∧
      DiagnosticReportService.decode_access_token (some t) now = some t.payload ∧
      MedicalStaffService.decode_access_token (some t) now = some t.payload) ∧
    (t.payload.iss = none →
      AuthService.decode_access_token (some t) now = some t.payload ∧
      UserService.decode_access_token (some t) now = some t.payload ∧
      MedicalTestService.decode_access_token (some t) now = some t.payload ∧
      PatientService.decode_access_token (some t) now = some t.payload ∧
      DiagnosticReportService.decode_access_token (some t) now = some t.payload ∧
      MedicalStaffService.decode_access_token (some t) now = some t.payload) := by
  have hok := jwt_ok hsig hexp
  constructor
  · intro hiss hne
    refine ⟨?_, ?_, ?_, ?_, ?_, ?_⟩
    · simp [AuthService.decode_access_token, hok, hiss, hne]
    · simp [UserService.decode_access_token, hok, hiss, hne]
    · simp [MedicalTestService.decode_access_token, hok, hiss, hne]
    · simp [PatientService.decode_access_token, hok]
    · simp [DiagnosticReportService.decode_access_token, hok]
    · simp [MedicalStaffService.decode_access_token, hok]
  · intro hiss
    refine ⟨?_, ?_, ?_, ?_, ?_, ?_⟩
    · simp [AuthService.decode_access_token, hok, hiss]
    · simp [UserService.decode_access_token, hok, hiss]
    · simp [MedicalTestService.decode_access_token, hok, hiss]
    · simp [PatientService.decode_access_token, hok]
    · simp [DiagnosticReportService.decode_access_token, hok]
    · simp [MedicalStaffService.decode_access_token, hok]

/-- Concrete mismatched-issuer token for the C2 witness. -/
def tC2 : Token := ⟨⟨none, none, none, some "other", none, none⟩, true⟩

/-- C2 witness: the concrete signature-valid token with `iss = "other"` is
rejected by the three issuer-checking validators and accepted by the three
validators that never check the issuer. -/
theorem C2_witness :
    AuthService.decode_access_token (some tC2) 0 = none ∧
    UserService.decode_access_token (some tC2) 0 = none ∧
    MedicalTestService.decode_access_token (some tC2) 0 = none ∧
    PatientService.decode_access_token (some tC2) 0 = some tC2.payload ∧
    DiagnosticReportService.decode_access_token (some tC2) 0 = some tC2.payload ∧
    MedicalStaffService.decode_access_token (some tC2) 0 = some tC2.payload :=
  (C2_issuer_check_per_service tC2 0 "other" rfl
    (by intro e he; simp [tC2] at he)).1 rfl (by decide)

/-- C10: a successfully validated token whose payload has no `is_active`
claim is treated as active: neither the patient-service guards nor the
medical-test-service role guard ever reject it with the
`Forbidden(inactive)` outcome. -/
theorem C10_missing_is_active_defaults_active (tok : TokenStr) (p : Payload) (now : Int)
    (hP : PatientService.decode_access_token tok now = some p)
    (hM : MedicalTestService.decode_access_token tok now = some p)
    (hnone : p.is_active = none) :
    (∀ ai, PatientService.get_current_user_id tok now ai ≠ .err 403 .inactiveAccount) ∧
    (∀ allowed, PatientService.require_role allowed tok now ≠
      .err 403 .inactiveAccount) ∧
    (∀ allowed, MedicalTestService.require_role allowed tok now ≠
      .err 403 .inactiveAccount) := by
  refine ⟨?_, ?_, ?_⟩
  · intro ai
    simp only [PatientService.get_current_user_id, hP, hnone]
    cases p.sub <;> simp
  · intro allowed
    simp only [PatientService.require_role, hP, hnone]
    simp only [Option.getD_none, Bool.not_true, Bool.false_eq_true, if_false]
    split
    · simp
    · split
      · simp
      · simp
  · intro allowed
    simp only [MedicalTestService.require_role, hM, hnone]
    simp only [Option.getD_none, Bool.not_true, Bool.false_eq_true, if_false]
    split
    · simp
    · cases p.sub <;> simp

/-- Concrete token for the C10 witness: valid signature, `sub` and `role`
present, no `is_active` claim. -/
def tokC10 : TokenStr :=
  some ⟨⟨some "USR-000001", some "doctor", none, none, none, none⟩, true⟩

/-- Payload of `tokC10`. -/
def pC10 : Payload := ⟨some "USR-000001", some "doctor", none, none, none, none⟩

/-- C10 witness: a concrete valid token with no `is_active` claim passes
the inactive check of all three guards. -/
theorem C10_witness :
    (PatientService.decode_access_token tokC10 0 = some pC10) ∧
    (∀ ai, PatientService.get_current_user_id tokC10 0 ai ≠
      .err 403 .inactiveAccount) ∧
    (∀ allowed, PatientService.require_role allowed tokC10 0 ≠
      .err 403 .inactiveAccount) ∧
    (∀ allowed, MedicalTestService.require_role allowed tokC10 0 ≠
      .err 403 .inactiveAccount) :=
  ⟨by decide,
   (C10_missing_is_active_defaults_active tokC10 pC10 0 (by decide) (by decide) rfl).1,
   (C10_missing_is_active_defaults_active tokC10 pC10 0 (by decide) (by decide) rfl).2.1,
   (C10_missing_is_active_defaults_active tokC10 pC10 0 (by decide) (by decide) rfl).2.2⟩

/-- C9: the fire-and-forget workflow notifier absorbs every failure of the
notification call (non-2xx status, timeout, connection error, any other
exception) and returns normally, and the response of the endpoint that
scheduled it is unaffected by the notification's outcome. -/
theorem C9_notifier_never_raises :
    (∀ (user_id action : String) (entity_type relevant_id : Option String)
      (o : DiagnosticReportService.NotifyOutcome),
      ∃ logs, DiagnosticReportService.log_workflow_action_async user_id action
        entity_type relevant_id o = .ok logs) ∧
    (∀ (resp : DiagnosticReportService.ClientResponse) (user_id action : String)
      (entity_type relevant_id : Option String)
      (o1 o2 : DiagnosticReportService.NotifyOutcome),
      (DiagnosticReportService.run_with_background_notifier resp user_id action
          entity_type relevant_id o1).1 =
      (DiagnosticReportService.run_with_background_notifier resp user_id action
          entity_type relevant_id o2).1) := by
  constructor
  · intro user_id action entity_type relevant_id o
    cases h : DiagnosticReportService.notifyAttempt o with
    | ok logs =>
      exact ⟨logs, by simp [DiagnosticReportService.log_workflow_action_async, h]⟩
    | error e =>
      exact ⟨["Error logging workflow action: " ++ e],
        by simp [DiagnosticReportService.log_workflow_action_async, h]⟩
  · intro resp user_id action entity_type relevant_id o1 o2
    rfl

/-- A role's `.value` string is `"admin"` exactly for `ADMIN`. -/
theorem value_eq_admin_iff (r : UserRole) : r.value = "admin" ↔ r = .ADMIN := by
  cases r <;> decide

/-! ### C7 -/

/-- Concrete token for C7: valid signature, `sub` present,
`is_active = false`. -/
def tokC7 : TokenStr :=
  some ⟨⟨some "USR-000001", some "patient", some false, none, none, none⟩, true⟩

/-- Payload of `tokC7`. -/
def pC7 : Payload := ⟨some "USR-000001", some "patient", some false, none, none, none⟩

/-- C7 counterexample: an otherwise-valid token carrying `is_active=false`
is ACCEPTED by the patient-service `get_current_user` guard even though
the call site did not set `allow_inactive` — the subject is returned and
no 403 is raised, so it is not the case that "the authentication guard"
(both cited guards) rejects such a token. -/
theorem C7_counterexample :
    PatientService.decode_access_token tokC7 0 = some pC7 ∧
    pC7.is_active = some false ∧
    PatientService.get_current_user tokC7 0 false = .ok "USR-000001" := by
  decide

/-- C7 (amended): for a successfully validated token that carries a `sub`
and `is_active=false`, `get_current_user_id` rejects with 403 unless the
call site sets `allow_inactive`, in which case the subject is returned;
`get_current_user`, however, performs no activation check and returns the
subject whatever `allow_inactive` is. -/
theorem C7_inactive_enforcement (tok : TokenStr) (p : Payload) (uid : String)
    (now : Int)
    (hdec : PatientService.decode_access_token tok now = some p)
    (hsub : p.sub = some uid) (hinact : p.is_active = some false) :
    PatientService.get_current_user_id tok now false = .err 403 .inactiveAccount ∧
    PatientService.get_current_user_id tok now true = .ok uid ∧
    (∀ ai, PatientService.get_current_user tok now ai = .ok uid) := by
  refine ⟨?_, ?_, ?_⟩
  · simp [PatientService.get_current_user_id, hdec, hsub, hinact]
  · simp [PatientService.get_current_user_id, hdec, hsub, hinact]
  · intro ai
    simp [PatientService.get_current_user, hdec, hsub]

/-- C7 witness: the amended behaviour at the concrete inactive token. -/
theorem C7_witness :
    (PatientService.decode_access_token tokC7 0 = some pC7 ∧
      pC7.sub = some "USR-000001" ∧ pC7.is_active = some false) ∧
    (PatientService.get_current_user_id tokC7 0 false = .err 403 .inactiveAccount ∧
      PatientService.get_current_user_id tokC7 0 true = .ok "USR-000001" ∧
      ∀ ai, PatientService.get_current_user tokC7 0 ai = .ok "USR-000001") :=
  ⟨⟨by decide, rfl, rfl⟩,
   C7_inactive_enforcement tokC7 pC7 "USR-000001" 0 (by decide) rfl rfl⟩

/-! ### C1 -/

/-- Concrete admin token for C1: valid signature, `role=admin`, no `sub`,
`is_active=true`. -/
def tokC1 : TokenStr := some ⟨⟨none, some "admin", some true, none, none, none⟩, true⟩

/-- Payload of `tokC1`. -/
def pC1 : Payload := ⟨none, some "admin", some true, none, none, none⟩

/-- C1 counterexample: a valid token with `role=admin` and no `sub` claim
is rejected with 401 by the medical-test-service `require_role` even when
the allowed set is `{admin}` — that copy has no admin-sentinel branch and
requires a `sub` claim — so it is not the case that `require_role({admin})`
accepts such a token in each backend service. -/
theorem C1_counterexample :
    MedicalTestService.decode_access_token tokC1 0 = some pC1 ∧
    pC1.role = some "admin" ∧ pC1.sub = none ∧
    MedicalTestService.require_role ["admin"] tokC1 0 = .err 401 .couldNotValidate := by
  decide

/-- C1 (amended): for a token that validates in each service and carries
`role=admin`, no `sub`, and `is_active` absent or true: the patient- and
user-service `require_role` with allowed set `{admin}` accept it and
return the Admin sentinel, and with any allowed set not containing admin
reject it with 403; the medical-test-service `require_role` rejects it
with 401 even when admin is allowed (missing `sub`), and with 403 when the
allowed set does not contain admin. -/
theorem C1_admin_token_guards (tok : TokenStr) (p : Payload) (now : Int)
    (db : List UserService.User)
    (hdecP : PatientService.decode_access_token tok now = some p)
    (hdecU : UserService.decode_access_token tok now = some p)
    (hdecM : MedicalTestService.decode_access_token tok now = some p)
    (hrole : p.role = some "admin") (hsub : p.sub = none)
    (hact : p.is_active ≠ some false) :
    PatientService.require_role [.ADMIN] tok now = .admin ∧
    (∀ allowed, UserRole.ADMIN ∉ allowed →
      PatientService.require_role allowed tok now = .err 403 .notEnoughPermissions) ∧
    UserService.require_role [.ADMIN] db tok now = .admin ∧
    (∀ allowed, UserRole.ADMIN ∉ allowed →
      UserService.require_role allowed db tok now = .err 403 .notEnoughPermissions) ∧
    MedicalTestService.require_role ["admin"] tok now = .err 401 .couldNotValidate ∧
    (∀ allowed, "admin" ∉ allowed.map strLower →
      MedicalTestService.require_role allowed tok now =
        .err 403 (.notEnoughPermissionsVerbose (allowed.map strLower) p.role)) := by
  have hga : p.is_active.getD true = true := by
    cases hia : p.is_active with
    | none => rfl
    | some b =>
      cases b with
      | false => exact absurd hia hact
      | true => rfl
  have hadmin : UserService.get_current_user db tok now false = .admin := by
    simp [UserService.get_current_user, hdecU, hrole, hsub, UserRole.value]
  refine ⟨?_, ?_, ?_, ?_, ?_, ?_⟩
  · simp [PatientService.require_role, hdecP, hrole, hsub, hga, UserRole.value]
  · intro allowed hna
    have hcon : (allowed.map UserRole.value).contains "admin" = false := by
      apply contains_eq_false_of_not_mem
      simp only [List.mem_map, not_exists]
      rintro r ⟨hrmem, hrv⟩
      exact hna (((value_eq_admin_iff r).mp hrv) ▸ hrmem)
    simp [PatientService.require_role, hdecP, hrole, hga, hcon]
    intro x hx hv
    exact absurd (((value_eq_admin_iff x).mp hv) ▸ hx) hna
  · simp [UserService.require_role, hadmin, List.contains, List.elem]
  · intro allowed hna
    have hcon : allowed.contains UserRole.ADMIN = false :=
      contains_eq_false_of_not_mem hna
    simp [UserService.require_role, hadmin, hcon]
    exact hna
  · simp [MedicalTestService.require_role, hdecM, hrole, hsub, hga]
  · intro allowed hna
    have hcon : (allowed.map strLower).contains (strLower "admin") = false := by
      have hal : strLower "admin" = "admin" := rfl
      rw [hal]
      exact contains_eq_false_of_not_mem hna
    simp [MedicalTestService.require_role, hdecM, hrole, hga, hcon]
    intro x hx hv
    have hmem : "admin" ∈ allowed.map strLower := List.mem_map.mpr ⟨x, hx, hv⟩
    exact absurd hmem hna

/-- C1 witness: the amended behaviour at the concrete admin token. -/
theorem C1_witness :
    (PatientService.decode_access_token tokC1 0 = some pC1 ∧
      UserService.decode_access_token tokC1 0 = some pC1 ∧
      MedicalTestService.decode_access_token tokC1 0 = some pC1 ∧
      pC1.role = some "admin" ∧ pC1.sub = none ∧ pC1.is_active ≠ some false) ∧
    (PatientService.require_role [.ADMIN] tokC1 0 = .admin ∧
      UserService.require_role [.ADMIN] [] tokC1 0 = .admin ∧
      PatientService.require_role [.DOCTOR] tokC1 0 = .err 403 .notEnoughPermissions ∧
      MedicalTestService.require_role ["admin"] tokC1 0 =
        .err 401 .couldNotValidate) := by
  have h := C1_admin_token_guards tokC1 pC1 0 [] (by decide) (by decide) (by decide)
    rfl rfl (by decide)
  exact ⟨⟨by decide, by decide, by decide, rfl, rfl, by decide⟩,
    ⟨h.1, h.2.2.1, h.2.1 [.DOCTOR] (by decide), h.2.2.2.2.1⟩⟩

end IMS

namespace IMS

/-! ### C8 -/

/-- A database containing an account whose stored role is admin — such a
row is creatable through the user service, whose `UserCreate` schema
accepts any `UserRole`. -/
def evilDB : List UserService.User :=
  [⟨"USR-000001", "eve", "eve@example.com", "Eve", "hash", .ADMIN, true⟩]

/-- The token `login` issues for that account (password check succeeding). -/
def tokC8 : Token :=
  ⟨⟨some "USR-000001", some "admin", some true, some "ims-auth-service",
    some 1800, some 0⟩, true⟩

/-- C8 counterexample: authenticating a database account whose stored role
is admin yields a token with BOTH `sub` present and `role=admin`, so it is
not the case that in every issued token `sub` is absent iff `role=admin`. -/
theorem C8_counterexample :
    AuthService.login evilDB (fun _ _ => true) "eve" "pw" 0 = .ok tokC8 ∧
    ¬(tokC8.payload.sub = none ↔ tokC8.payload.role = some "admin") :=
  ⟨rfl, by decide⟩

/-- C8 (amended): token issuance.  (1) The statically configured admin
pair yields a token with `role=admin`, `is_active=true` and no `sub`.
(2) Otherwise, an unknown username or a failed password check yields 401
and no token.  (3) Otherwise the issued token carries `sub` equal to the
account's business identifier (when that identifier is non-empty — the
generator always produces `USR-......`), the account's role value and
`is_active`, `exp = now + 60*ACCESS_TOKEN_EXPIRE_MINUTES` and
`iss = "ims-auth-service"`.  (4) Provided no database account carries role
admin and every identifier is non-empty, `sub` is absent iff `role=admin`
in every issued token. -/
theorem C8_token_issuance (db : List UserService.User)
    (vp : String → String → Bool) (username password : String) (now : Int)
    (hids : ∀ u ∈ db, u.user_id ≠ "")
    (hnoadmin : ∀ u ∈ db, u.user_role ≠ UserRole.ADMIN) :
    ((username = AuthService.ADMIN_USERNAME ∧
        password = AuthService.ADMIN_PASSWORD_HASH) →
      ∃ t, AuthService.login db vp username password now = .ok t ∧
        t.payload.role = some "admin" ∧ t.payload.is_active = some true ∧
        t.payload.sub = none) ∧
    (¬(username = AuthService.ADMIN_USERNAME ∧
        password = AuthService.ADMIN_PASSWORD_HASH) →
      (db.find? (fun u => u.username == username) = none →
        AuthService.login db vp username password now =
          .error (401, .incorrectCredentials)) ∧
      (∀ user, db.find? (fun u => u.username == username) = some user →
        vp password user.hashed_password = false →
        AuthService.login db vp username password now =
          .error (401, .incorrectCredentials)) ∧
      (∀ user, db.find? (fun u => u.username == username) = some user →
        vp password user.hashed_password = true →
        ∃ t, AuthService.login db vp username password now = .ok t ∧
          t.payload.sub = some user.user_id ∧
          t.payload.role = some user.user_role.value ∧
          t.payload.is_active = some user.is_active ∧
          t.payload.exp = some (now + 60 * AuthService.ACCESS_TOKEN_EXPIRE_MINUTES) ∧
          t.payload.iss = some "ims-auth-service")) ∧
    (∀ t, AuthService.login db vp username password now = .ok t →
      (t.payload.sub = none ↔ t.payload.role = some "admin")) := by
  refine ⟨?_, ?_, ?_⟩
  · rintro ⟨hu, hp⟩
    subst hu
    subst hp
    exact ⟨_, rfl, rfl, rfl, rfl⟩
  · intro hnadm
    refine ⟨?_, ?_, ?_⟩
    · intro hfind
      simp [AuthService.login, AuthService.authenticate_user, hnadm, hfind]
    · intro user hfind hvp
      simp [AuthService.login, AuthService.authenticate_user, hnadm, hfind, hvp]
    · intro user hfind hvp
      have huid : user.user_id ≠ "" := hids user (List.mem_of_find?_eq_some hfind)
      have hbne : (user.user_id != "") = true := bne_iff_ne.mpr huid
      refine ⟨AuthService.create_access_token_for_user
          ⟨some user.user_id, user.username, some user.email, user.name,
            user.user_role, user.is_active, false⟩ now, ?_, ?_, ?_, ?_, ?_, ?_⟩
      · simp [AuthService.login, AuthService.authenticate_user, hnadm, hfind, hvp]
      all_goals
        simp [AuthService.create_access_token_for_user,
          AuthService.create_access_token, hbne]
  · intro t hok
    by_cases hadm : username = AuthService.ADMIN_USERNAME ∧
        password = AuthService.ADMIN_PASSWORD_HASH
    · obtain ⟨hu, hp⟩ := hadm
      subst hu
      subst hp
      have ht : t = AuthService.create_access_token_for_user
          ⟨none, AuthService.ADMIN_USERNAME, none, "Admin", .ADMIN, true, true⟩ now := by
        have : AuthService.login db vp AuthService.ADMIN_USERNAME
            AuthService.ADMIN_PASSWORD_HASH now =
            .ok (AuthService.create_access_token_for_user
              ⟨none, AuthService.ADMIN_USERNAME, none, "Admin", .ADMIN, true, true⟩ now) :=
          rfl
        rw [this] at hok
        exact (Except.ok.injEq _ _).mp hok.symm
      subst ht
      constructor
      · intro _
        rfl
      · intro _
        rfl
    · cases hfind : db.find? (fun u => u.username == username) with
      | none =>
        rw [show AuthService.login db vp username password now =
            .error (401, .incorrectCredentials) by
          simp [AuthService.login, AuthService.authenticate_user, hadm, hfind]] at hok
        cases hok
      | some user =>
        cases hvp : vp password user.hashed_password with
        | false =>
          rw [show AuthService.login db vp username password now =
              .error (401, .incorrectCredentials) by
            simp [AuthService.login, AuthService.authenticate_user, hadm, hfind,
              hvp]] at hok
          cases hok
        | true =>
          have hmem := List.mem_of_find?_eq_some hfind
          have huid : user.user_id ≠ "" := hids user hmem
          have hbne : (user.user_id != "") = true := bne_iff_ne.mpr huid
          have hnadrole : user.user_role ≠ UserRole.ADMIN := hnoadmin user hmem
          have ht : t = AuthService.create_access_token_for_user
              ⟨some user.user_id, user.username, some user.email, user.name,
                user.user_role, user.is_active, false⟩ now := by
            rw [show AuthService.login db vp username password now =
                .ok (AuthService.create_access_token_for_user
                  ⟨some user.user_id, user.username, some user.email, user.name,
                    user.user_role, user.is_active, false⟩ now) by
              simp [AuthService.login, AuthService.authenticate_user, hadm, hfind,
                hvp]] at hok
            exact (Except.ok.injEq _ _).mp hok.symm
          subst ht
          have hsub : (AuthService.create_access_token_for_user
              ⟨some user.user_id, user.username, some user.email, user.name,
                user.user_role, user.is_active, false⟩ now).payload.sub =
              some user.user_id := by
            simp [AuthService.create_access_token_for_user,
              AuthService.create_access_token, hbne]
          have hrole : (AuthService.create_access_token_for_user
              ⟨some user.user_id, user.username, some user.email, user.name,
                user.user_role, user.is_active, false⟩ now).payload.role =
              some user.user_role.value := by
            simp [AuthService.create_access_token_for_user,
              AuthService.create_access_token, hbne]
          rw [hsub, hrole]
          constructor
          · intro hc
            cases hc
          · intro hc
            have : user.user_role.value = "admin" := (Option.some.injEq _ _).mp hc
            exact absurd ((value_eq_admin_iff user.user_role).mp this) hnadrole

/-- C8 witness: the amended behaviour at a concrete database and password
oracle: admin pair, unknown user, wrong password, and a successful login. -/
theorem C8_witness :
    ((∀ u ∈ ([⟨"USR-000002", "bob", "bob@example.com", "Bob", "h", .PATIENT, true⟩] :
        List UserService.User), u.user_id ≠ "") ∧
      (∀ u ∈ ([⟨"USR-000002", "bob", "bob@example.com", "Bob", "h", .PATIENT, true⟩] :
        List UserService.User), u.user_role ≠ UserRole.ADMIN)) ∧
    (∃ t, AuthService.login
        [⟨"USR-000002", "bob", "bob@example.com", "Bob", "h", .PATIENT, true⟩]
        (fun p _ => p == "pw") "admin" "admin#123" 0 = .ok t ∧
      t.payload.role = some "admin" ∧ t.payload.is_active = some true ∧
      t.payload.sub = none) ∧
    (AuthService.login
        [⟨"USR-000002", "bob", "bob@example.com", "Bob", "h", .PATIENT, true⟩]
        (fun p _ => p == "pw") "carol" "pw" 0 = .error (401, .incorrectCredentials)) ∧
    (AuthService.login
        [⟨"USR-000002", "bob", "bob@example.com", "Bob", "h", .PATIENT, true⟩]
        (fun p _ => p == "pw") "bob" "wrong" 0 = .error (401, .incorrectCredentials)) ∧
    (∃ t, AuthService.login
        [⟨"USR-000002", "bob", "bob@example.com", "Bob", "h", .PATIENT, true⟩]
        (fun p _ => p == "pw") "bob" "pw" 0 = .ok t ∧
      t.payload.sub = some "USR-000002" ∧ t.payload.role = some "patient" ∧
      t.payload.is_active = some true ∧ t.payload.exp = some 1800 ∧
      t.payload.iss = some "ims-auth-service") := by
  have h := C8_token_issuance
    [⟨"USR-000002", "bob", "bob@example.com", "Bob", "h", .PATIENT, true⟩]
    (fun p _ => p == "pw") "bob" "pw" 0 (by decide) (by decide)
  have hadm := C8_token_issuance
    [⟨"USR-000002", "bob", "bob@example.com", "Bob", "h", .PATIENT, true⟩]
    (fun p _ => p == "pw") "admin" "admin#123" 0 (by decide) (by decide)
  have hnone := C8_token_issuance
    [⟨"USR-000002", "bob", "bob@example.com", "Bob", "h", .PATIENT, true⟩]
    (fun p _ => p == "pw") "carol" "pw" 0 (by decide) (by decide)
  have hwrong := C8_token_issuance
    [⟨"USR-000002", "bob", "bob@example.com", "Bob", "h", .PATIENT, true⟩]
    (fun p _ => p == "pw") "bob" "wrong" 0 (by decide) (by decide)
  refine ⟨⟨by decide, by decide⟩, hadm.1 (by decide), ?_, ?_, ?_⟩
  · exact (hnone.2.1 (by decide)).1 (by decide)
  · exact (hwrong.2.1 (by decide)).2.1
      ⟨"USR-000002", "bob", "bob@example.com", "Bob", "h", .PATIENT, true⟩
      (by decide) (by decide)
  · obtain ⟨t, hok, hs, hr, ha, he, hi⟩ := (h.2.1 (by decide)).2.2
      ⟨"USR-000002", "bob", "bob@example.com", "Bob", "h", .PATIENT, true⟩
      (by decide) (by decide)
    exact ⟨t, hok, hs, hr, ha, he, hi⟩

end IMS

namespace IMS

/-! ### Header-map lemmas for the gateway -/

/-- Popping one key leaves lookups of every other key unchanged. -/
theorem headerGet_popHeader_of_ne (hs : List (String × String)) (k q : String)
    (h : q ≠ k) : Gateway.headerGet (Gateway.popHeader hs k) q = Gateway.headerGet hs q := by
  induction hs with
  | nil => rfl
  | cons kv tl ih =>
    by_cases hk : kv.1 = k
    · have h1 : (kv.1 != k) = false := by simp [hk]
      have h2 : (kv.1 == q) = false := by simp [hk, Ne.symm h]
      simp only [Gateway.popHeader, List.filter] at ih ⊢
      rw [h1]
      simp only [Gateway.headerGet, List.find?] at ih ⊢
      rw [h2]
      exact ih
    · have h1 : (kv.1 != k) = true := by simp [hk]
      simp only [Gateway.popHeader, List.filter] at ih ⊢
      rw [h1]
      simp only [Gateway.headerGet, List.find?] at ih ⊢
      cases hq : (kv.1 == q) with
      | true => rfl
      | false => exact ih

/-- Popping a key removes it from lookups. -/
theorem headerGet_popHeader_self (hs : List (String × String)) (k : String) :
    Gateway.headerGet (Gateway.popHeader hs k) k = none := by
  induction hs with
  | nil => rfl
  | cons kv tl ih =>
    by_cases hk : kv.1 = k
    · have h1 : (kv.1 != k) = false := by simp [hk]
      simp only [Gateway.popHeader, List.filter] at ih ⊢
      rw [h1]
      exact ih
    · have h1 : (kv.1 != k) = true := by simp [hk]
      have h2 : (kv.1 == k) = false := by simp [hk]
      simp only [Gateway.popHeader, List.filter] at ih ⊢
      rw [h1]
      simp only [Gateway.headerGet, List.find?] at ih ⊢
      rw [h2]
      exact ih

/-! ### C6 -/

/-- C6: the forwarder sends upstream the same method, query parameters and
body bytes it received, removing exactly the `host`, `connection` and
`content-length` request headers; and it returns the upstream status and
body bytes unchanged, removing exactly the `content-encoding`,
`transfer-encoding` and `content-length` response headers and preserving
the upstream `content-type` as the media type. -/
theorem C6_proxy_transparent (request : Gateway.GatewayRequest)
    (target_url path : String) (backend : Gateway.ForwardedRequest → Gateway.UpstreamResult)
    (r : Gateway.UpstreamResponse)
    (hmethod : request.method ∈ ["GET", "POST", "PUT", "DELETE", "PATCH"])
    (hb : backend (Gateway.buildForwardedRequest request target_url path) = .response r) :
    ((Gateway.buildForwardedRequest request target_url path).method = request.method ∧
      (Gateway.buildForwardedRequest request target_url path).params =
        request.queryParams ∧
      (Gateway.buildForwardedRequest request target_url path).content = request.body) ∧
    (∀ k, k ≠ "host" → k ≠ "connection" → k ≠ "content-length" →
      Gateway.headerGet (Gateway.buildForwardedRequest request target_url path).headers k =
        Gateway.headerGet request.headers k) ∧
    (Gateway.headerGet (Gateway.buildForwardedRequest request target_url path).headers
        "host" = none ∧
      Gateway.headerGet (Gateway.buildForwardedRequest request target_url path).headers
        "connection" = none ∧
      Gateway.headerGet (Gateway.buildForwardedRequest request target_url path).headers
        "content-length" = none) ∧
    (∃ out, Gateway.proxy_request request target_url path backend = .ok out ∧
      out.status_code = r.status ∧ out.content = r.content ∧
      (∀ k, k ≠ "content-encoding" → k ≠ "transfer-encoding" → k ≠ "content-length" →
        Gateway.headerGet out.headers k = Gateway.headerGet r.headers k) ∧
      Gateway.headerGet out.headers "content-encoding" = none ∧
      Gateway.headerGet out.headers "transfer-encoding" = none ∧
      Gateway.headerGet out.headers "content-length" = none ∧
      out.media_type = Gateway.headerGet r.headers "content-type") := by
  refine ⟨⟨rfl, rfl, rfl⟩, ?_, ⟨?_, ?_, ?_⟩, ?_⟩
  · intro k h1 h2 h3
    show Gateway.headerGet (Gateway.popHeader (Gateway.popHeader
      (Gateway.popHeader request.headers "host") "connection") "content-length") k = _
    rw [headerGet_popHeader_of_ne _ _ _ h3, headerGet_popHeader_of_ne _ _ _ h2,
      headerGet_popHeader_of_ne _ _ _ h1]
  · show Gateway.headerGet (Gateway.popHeader (Gateway.popHeader
      (Gateway.popHeader request.headers "host") "connection") "content-length") "host" = none
    rw [headerGet_popHeader_of_ne _ _ _ (by decide),
      headerGet_popHeader_of_ne _ _ _ (by decide), headerGet_popHeader_self]
  · show Gateway.headerGet (Gateway.popHeader (Gateway.popHeader
      (Gateway.popHeader request.headers "host") "connection") "content-length")
      "connection" = none
    rw [headerGet_popHeader_of_ne _ _ _ (by decide), headerGet_popHeader_self]
  · exact headerGet_popHeader_self _ _
  · refine ⟨⟨r.content, r.status,
      Gateway.popHeader (Gateway.popHeader (Gateway.popHeader r.headers
        "content-encoding") "transfer-encoding") "content-length",
      Gateway.headerGet r.headers "content-type"⟩, ?_, rfl, rfl, ?_, ?_, ?_, ?_, rfl⟩
    · show Gateway.proxy_request request target_url path backend = _
      simp only [Gateway.proxy_request, hb]
    · intro k h1 h2 h3
      show Gateway.headerGet (Gateway.popHeader (Gateway.popHeader
        (Gateway.popHeader r.headers "content-encoding") "transfer-encoding")
        "content-length") k = _
      rw [headerGet_popHeader_of_ne _ _ _ h3, headerGet_popHeader_of_ne _ _ _ h2,
        headerGet_popHeader_of_ne _ _ _ h1]
    · show Gateway.headerGet (Gateway.popHeader (Gateway.popHeader
        (Gateway.popHeader r.headers "content-encoding") "transfer-encoding")
        "content-length") "content-encoding" = none
      rw [headerGet_popHeader_of_ne _ _ _ (by decide),
        headerGet_popHeader_of_ne _ _ _ (by decide), headerGet_popHeader_self]
    · show Gateway.headerGet (Gateway.popHeader (Gateway.popHeader
        (Gateway.popHeader r.headers "content-encoding") "transfer-encoding")
        "content-length") "transfer-encoding" = none
      rw [headerGet_popHeader_of_ne _ _ _ (by decide), headerGet_popHeader_self]
    · exact headerGet_popHeader_self _ _

/-- C6 witness: a concrete POST with representative headers is forwarded
and its upstream response returned as the theorem states. -/
theorem C6_witness :
    (("POST" : String) ∈ ["GET", "POST", "PUT", "DELETE", "PATCH"] ∧
      (fun _ => Gateway.UpstreamResult.response
          ⟨201, [("content-type", "application/json"), ("content-length", "7")], [7, 8]⟩ :
        Gateway.ForwardedRequest → Gateway.UpstreamResult)
        (Gateway.buildForwardedRequest
          ⟨"POST", [("q", "1")], [1, 2, 3],
            [("host", "gw"), ("connection", "keep-alive"), ("content-length", "3"),
             ("authorization", "Bearer x")]⟩
          "http://patient-service:5003" "/api/v1/patients") =
        .response ⟨201, [("content-type", "application/json"), ("content-length", "7")],
          [7, 8]⟩) ∧
    ((Gateway.buildForwardedRequest
        ⟨"POST", [("q", "1")], [1, 2, 3],
          [("host", "gw"), ("connection", "keep-alive"), ("content-length", "3"),
           ("authorization", "Bearer x")]⟩
        "http://patient-service:5003" "/api/v1/patients").method = "POST" ∧
      Gateway.headerGet (Gateway.buildForwardedRequest
        ⟨"POST", [("q", "1")], [1, 2, 3],
          [("host", "gw"), ("connection", "keep-alive"), ("content-length", "3"),
           ("authorization", "Bearer x")]⟩
        "http://patient-service:5003" "/api/v1/patients").headers "authorization" =
          some "Bearer x" ∧
      Gateway.headerGet (Gateway.buildForwardedRequest
        ⟨"POST", [("q", "1")], [1, 2, 3],
          [("host", "gw"), ("connection", "keep-alive"), ("content-length", "3"),
           ("authorization", "Bearer x")]⟩
        "http://patient-service:5003" "/api/v1/patients").headers "host" = none ∧
      ∃ out, Gateway.proxy_request
          ⟨"POST", [("q", "1")], [1, 2, 3],
            [("host", "gw"), ("connection", "keep-alive"), ("content-length", "3"),
             ("authorization", "Bearer x")]⟩
          "http://patient-service:5003" "/api/v1/patients"
          (fun _ => Gateway.UpstreamResult.response
            ⟨201, [("content-type", "application/json"), ("content-length", "7")],
              [7, 8]⟩) = .ok out ∧
        out.status_code = 201 ∧ out.content = [7, 8] ∧
        out.media_type = some "application/json" ∧
        Gateway.headerGet out.headers "content-length" = none) := by
  have h := C6_proxy_transparent
    ⟨"POST", [("q", "1")], [1, 2, 3],
      [("host", "gw"), ("connection", "keep-alive"), ("content-length", "3"),
       ("authorization", "Bearer x")]⟩
    "http://patient-service:5003" "/api/v1/patients"
    (fun _ => Gateway.UpstreamResult.response
      ⟨201, [("content-type", "application/json"), ("content-length", "7")], [7, 8]⟩)
    ⟨201, [("content-type", "application/json"), ("content-length", "7")], [7, 8]⟩
    (by decide) rfl
  obtain ⟨out, hout, hs, hc, hhdr, _, _, hcl, hmt⟩ := h.2.2.2
  refine ⟨⟨by decide, rfl⟩, h.1.1, ?_, ?_, out, hout, hs, hc, hmt, hcl⟩
  · rw [h.2.1 "authorization" (by decide) (by decide) (by decide)]
    decide
  · exact h.2.2.1.1

end IMS

namespace IMS

/-! ### C5 -/

/-- The router's inline normalization agrees with `normalizePath`. -/
theorem router_norm_eq (path : String) :
    (if !(strStartsWith path "/") then "/" ++ path else path) =
      Gateway.normalizePath path := by
  unfold Gateway.normalizePath
  cases h : strStartsWith path "/" <;> simp [h]

/-- C5: when no configured prefix matches the normalized path the router
answers 404 without consulting the upstream at all; and for a proxied
request, an upstream timeout yields 504, a connection failure 503, and any
other forwarding exception 500 carrying the failure reason. -/
theorem C5_gateway_error_mapping :
    (∀ (path : String) (request : Gateway.GatewayRequest)
      (b1 b2 : Gateway.ForwardedRequest → Gateway.UpstreamResult),
      path ≠ "" → path ≠ "/" → path ≠ "health" →
      Gateway.find_target_service (Gateway.normalizePath path) = none →
      Gateway.gateway_router path request b1 =
        .httpError 404 (.routeNotFound (Gateway.normalizePath path)) ∧
      Gateway.gateway_router path request b1 = Gateway.gateway_router path request b2) ∧
    (∀ (request : Gateway.GatewayRequest) (target_url path : String)
      (backend : Gateway.ForwardedRequest → Gateway.UpstreamResult),
      backend (Gateway.buildForwardedRequest request target_url path) = .timeout →
      Gateway.proxy_request request target_url path backend =
        .httpError 504 .gatewayTimeout) ∧
    (∀ (request : Gateway.GatewayRequest) (target_url path : String)
      (backend : Gateway.ForwardedRequest → Gateway.UpstreamResult),
      backend (Gateway.buildForwardedRequest request target_url path) = .connectError →
      Gateway.proxy_request request target_url path backend =
        .httpError 503 .serviceUnavailable) ∧
    (∀ (request : Gateway.GatewayRequest) (target_url path : String)
      (backend : Gateway.ForwardedRequest → Gateway.UpstreamResult) (msg : String),
      backend (Gateway.buildForwardedRequest request target_url path) =
        .otherError msg →
      Gateway.proxy_request request target_url path backend =
        .httpError 500 (.gatewayError msg)) := by
  refine ⟨?_, ?_, ?_, ?_⟩
  · intro path request b1 b2 h1 h2 h3 hfind
    have hroute : ∀ b : Gateway.ForwardedRequest → Gateway.UpstreamResult,
        Gateway.gateway_router path request b =
          .httpError 404 (.routeNotFound (Gateway.normalizePath path)) := by
      intro b
      simp only [Gateway.gateway_router, h1, h2, h3, router_norm_eq, hfind]
      simp
    exact ⟨hroute b1, (hroute b1).trans (hroute b2).symm⟩
  · intro request target_url path backend hb
    simp only [Gateway.proxy_request, hb]
  · intro request target_url path backend hb
    simp only [Gateway.proxy_request, hb]
  · intro request target_url path backend msg hb
    simp only [Gateway.proxy_request, hb]

/-- C5 witness: the 404, 504, 503 and 500 mappings at concrete inputs. -/
theorem C5_witness :
    (("/nope" : String) ≠ "" ∧ ("/nope" : String) ≠ "/" ∧
      ("/nope" : String) ≠ "health" ∧
      Gateway.find_target_service (Gateway.normalizePath "/nope") = none) ∧
    (Gateway.gateway_router "/nope" ⟨"GET", [], [], []⟩ (fun _ => .timeout) =
      .httpError 404 (.routeNotFound (Gateway.normalizePath "/nope")) ∧
      Gateway.gateway_router "/nope" ⟨"GET", [], [], []⟩ (fun _ => .timeout) =
        Gateway.gateway_router "/nope" ⟨"GET", [], [], []⟩ (fun _ => .connectError)) ∧
    Gateway.proxy_request ⟨"GET", [], [], []⟩ "http://auth-service:5001"
      "/api/v1/auth/login" (fun _ => .timeout) = .httpError 504 .gatewayTimeout ∧
    Gateway.proxy_request ⟨"GET", [], [], []⟩ "http://auth-service:5001"
      "/api/v1/auth/login" (fun _ => .connectError) =
        .httpError 503 .serviceUnavailable ∧
    Gateway.proxy_request ⟨"GET", [], [], []⟩ "http://auth-service:5001"
      "/api/v1/auth/login" (fun _ => .otherError "boom") =
        .httpError 500 (.gatewayError "boom") := by
  have h := C5_gateway_error_mapping
  refine ⟨⟨by decide, by decide, by decide, by decide⟩, ?_, ?_, ?_, ?_⟩
  · exact h.1 "/nope" ⟨"GET", [], [], []⟩ (fun _ => .timeout) (fun _ => .connectError)
      (by decide) (by decide) (by decide) (by decide)
  · exact h.2.1 ⟨"GET", [], [], []⟩ "http://auth-service:5001" "/api/v1/auth/login"
      (fun _ => .timeout) rfl
  · exact h.2.2.1 ⟨"GET", [], [], []⟩ "http://auth-service:5001" "/api/v1/auth/login"
      (fun _ => .connectError) rfl
  · exact h.2.2.2 ⟨"GET", [], [], []⟩ "http://auth-service:5001" "/api/v1/auth/login"
      (fun _ => .otherError "boom") "boom" rfl

end IMS

namespace IMS

/-! ### C3: longest-prefix routing -/

/-- Two prefixes of the same character list with equal length are equal. -/
theorem charsPrefix_eq_of_length :
    ∀ {p q s : List Char}, charsPrefix p s = true → charsPrefix q s = true →
      p.length = q.length → p = q := by
  intro p
  induction p with
  | nil =>
    intro q s _ _ hl
    exact (List.length_eq_zero.mp hl.symm).symm
  | cons a ps ih =>
    intro q s hp hq hl
    cases s with
    | nil => simp [charsPrefix] at hp
    | cons c cs =>
      cases q with
      | nil => simp at hl
      | cons b qs =>
        simp only [charsPrefix, Bool.and_eq_true, beq_iff_eq] at hp hq
        simp only [List.length_cons, Nat.succ.injEq] at hl
        rw [hp.1, hq.1, ih hp.2 hq.2 hl]

/-- Two prefixes of the same string with equal length are equal. -/
theorem strStartsWith_eq_of_length {s p q : String}
    (hp : strStartsWith s p = true) (hq : strStartsWith s q = true)
    (hl : p.length = q.length) : p = q := by
  have hd : p.data = q.data := charsPrefix_eq_of_length hp hq hl
  cases p
  cases q
  exact congrArg String.mk hd

instance : IsTotal String (fun a b : String => b.length ≤ a.length) :=
  ⟨fun a b => (Nat.le_total a.length b.length).symm⟩

instance : IsTrans String (fun a b : String => b.length ≤ a.length) :=
  ⟨fun _ _ _ hab hbc => Nat.le_trans hbc hab⟩

/-- On a list sorted by length descending, `find?` of "the path starts
with this prefix" returns the matching element of maximal length. -/
theorem find?_sorted_longest {S : List String} {N : String} {p : String}
    (hsort : List.Sorted (fun a b : String => b.length ≤ a.length) S)
    (hp : p ∈ S) (hmatch : strStartsWith N p = true)
    (hmax : ∀ q ∈ S, strStartsWith N q = true → q.length ≤ p.length) :
    S.find? (fun sp => strStartsWith N sp) = some p := by
  induction S with
  | nil => cases hp
  | cons a tl ih =>
    rw [List.find?_cons]
    cases ha : strStartsWith N a with
    | false =>
      have hpa : p ≠ a := by
        intro he
        have hta : strStartsWith N a = true := he ▸ hmatch
        rw [hta] at ha
        cases ha
      have hp2 : p ∈ tl := (List.mem_cons.mp hp).resolve_left hpa
      simp only [ha]
      exact ih (List.sorted_cons.mp hsort).2 hp2
        (fun q hq hmq => hmax q (List.mem_cons_of_mem a hq) hmq)
    | true =>
      have hle : a.length ≤ p.length := hmax a (List.mem_cons_self a tl) ha
      have hge : p.length ≤ a.length := by
        rcases List.mem_cons.mp hp with rfl | hp2
        · exact Nat.le_refl _
        · exact (List.sorted_cons.mp hsort).1 p hp2
      have heq : a = p := strStartsWith_eq_of_length ha hmatch (Nat.le_antisymm hle hge)
      simp only [ha, heq]

/-- C3: whenever the normalized path starts with two distinct configured
prefixes (`p2` the longer one, maximal among the matching prefixes), the
gateway resolves the backend registered under `p2`; and every resolution
forwards the full normalized path, stripping nothing. -/
theorem C3_longest_prefix_wins (m : List (String × String)) (path p1 p2 : String)
    (h1 : p1 ∈ m.map Prod.fst) (h2 : p2 ∈ m.map Prod.fst)
    (hs1 : strStartsWith (Gateway.normalizePath path) p1 = true)
    (hs2 : strStartsWith (Gateway.normalizePath path) p2 = true)
    (hlt : p1.length < p2.length)
    (hmax : ∀ q ∈ m.map Prod.fst,
      strStartsWith (Gateway.normalizePath path) q = true → q.length ≤ p2.length) :
    (Gateway.findTargetService m path =
      (m.find? (fun kv => kv.1 == p2)).map
        (fun kv => (kv.2, Gateway.normalizePath path))) ∧
    (∀ (q : String) (r : String × String), Gateway.findTargetService m q = some r →
      r.2 = Gateway.normalizePath q) := by
  constructor
  · have hperm := List.perm_insertionSort
      (fun a b : String => b.length ≤ a.length) (m.map Prod.fst)
    have hsort := List.sorted_insertionSort
      (fun a b : String => b.length ≤ a.length) (m.map Prod.fst)
    have hpmem : p2 ∈ List.insertionSort
        (fun a b : String => b.length ≤ a.length) (m.map Prod.fst) :=
      hperm.mem_iff.mpr h2
    have hfind := find?_sorted_longest hsort hpmem hs2
      (fun q hq hmq => hmax q (hperm.subset hq) hmq)
    simp only [Gateway.findTargetService]
    rw [hfind]
    cases hkv : m.find? (fun kv => kv.1 == p2) with
    | none => simp [hkv]
    | some kv => simp [hkv]
  · intro q r hq
    simp only [Gateway.findTargetService] at hq
    cases hfind : List.find? (fun sp => strStartsWith (Gateway.normalizePath q) sp)
        (List.insertionSort (fun a b : String => b.length ≤ a.length)
          (m.map Prod.fst)) with
    | none =>
      rw [hfind] at hq
      cases hq
    | some sp =>
      rw [hfind] at hq
      cases hkv : m.find? (fun kv => kv.1 == sp) with
      | none => simp [hkv] at hq
      | some kv =>
        simp [hkv] at hq
        rw [← hq]

/-- C3 witness: with two overlapping configured prefixes, the longer one
wins and the full normalized path is forwarded. -/
theorem C3_witness :
    (("/a" : String) ∈ ([("/a", "A"), ("/ab", "B")].map Prod.fst) ∧
      ("/ab" : String) ∈ ([("/a", "A"), ("/ab", "B")].map Prod.fst) ∧
      strStartsWith (Gateway.normalizePath "/abc") "/a" = true ∧
      strStartsWith (Gateway.normalizePath "/abc") "/ab" = true ∧
      ("/a" : String).length < ("/ab" : String).length ∧
      (∀ q ∈ [("/a", "A"), ("/ab", "B")].map Prod.fst,
        strStartsWith (Gateway.normalizePath "/abc") q = true →
          q.length ≤ ("/ab" : String).length)) ∧
    Gateway.findTargetService [("/a", "A"), ("/ab", "B")] "/abc" = some ("B", "/abc") := by
  have h := C3_longest_prefix_wins [("/a", "A"), ("/ab", "B")] "/abc" "/a" "/ab"
    (by decide) (by decide) (by decide) (by decide) (by decide) (by decide)
  refine ⟨⟨by decide, by decide, by decide, by decide, by decide, by decide⟩, ?_⟩
  rw [h.1]
  decide

end IMS
